import Mathlib

/-!
# Verification of the identity and session-lifecycle core

A shallow embedding, in Lean 4, of the security-relevant services of the
`fiber-golang-boilerplate` repository: the refresh-token service
(`internal/service/refresh_token_service.go`), the user service
(`Authenticate`, `FindOrCreateByGoogle`), the password-reset and
email-verification services, the JWT helper (`pkg/token`), the in-memory
cache (`pkg/cache/memory.go`), and the `Refresh` handler sequence
(`internal/handler/auth_handler.go`).

Machine integers are modelled as `Nat` with explicit reduction modulo `2^32`
where the Go code uses 32-bit words (the SHA-256 implementation backing
`hashToken`); instants are `Nat` (seconds); collaborator stores are Lean
lists mirroring the SQL queries in `queries/` and the `sqlc` row types.
-/

/-! ## SHA-256 (crypto/sha256, FIPS 180-4), backing `hashToken`

The Go service hashes refresh tokens with `sha256.Sum256` and hex-encodes the
digest (`hashToken` in `refresh_token_service.go`).  We implement SHA-256
executably over `List Nat` bytes so that theorems about stored token values
talk about the real hash function. -/

/-- Truncate to a 32-bit word. -/
def w32 (x : Nat) : Nat := x % 4294967296

/-- Right-rotation of a 32-bit word by `n` positions. -/
def rotr32 (n x : Nat) : Nat := w32 (Nat.lor (x >>> n) (x <<< (32 - n)))

/-- Bitwise complement of a 32-bit word. -/
def not32 (x : Nat) : Nat := Nat.xor x 4294967295

/-- `Ch(x, y, z)` of FIPS 180-4. -/
def shaCh (x y z : Nat) : Nat := Nat.xor (Nat.land x y) (Nat.land (not32 x) z)

/-- `Maj(x, y, z)` of FIPS 180-4. -/
def shaMaj (x y z : Nat) : Nat :=
  Nat.xor (Nat.xor (Nat.land x y) (Nat.land x z)) (Nat.land y z)

/-- `Σ₀` of FIPS 180-4. -/
def shaS0 (x : Nat) : Nat := Nat.xor (Nat.xor (rotr32 2 x) (rotr32 13 x)) (rotr32 22 x)

/-- `Σ₁` of FIPS 180-4. -/
def shaS1 (x : Nat) : Nat := Nat.xor (Nat.xor (rotr32 6 x) (rotr32 11 x)) (rotr32 25 x)

/-- `σ₀` of FIPS 180-4. -/
def shaLS0 (x : Nat) : Nat := Nat.xor (Nat.xor (rotr32 7 x) (rotr32 18 x)) (x >>> 3)

/-- `σ₁` of FIPS 180-4. -/
def shaLS1 (x : Nat) : Nat := Nat.xor (Nat.xor (rotr32 17 x) (rotr32 19 x)) (x >>> 10)

/-- The 64 SHA-256 round constants. -/
def shaK : List Nat :=
  [1116352408, 1899447441, 3049323471, 3921009573, 961987163, 1508970993, 2453635748, 2870763221,
   3624381080, 310598401, 607225278, 1426881987, 1925078388, 2162078206, 2614888103, 3248222580,
   3835390401, 4022224774, 264347078, 604807628, 770255983, 1249150122, 1555081692, 1996064986,
   2554220882, 2821834349, 2952996808, 3210313671, 3336571891, 3584528711, 113926993, 338241895,
   666307205, 773529912, 1294757372, 1396182291, 1695183700, 1986661051, 2177026350, 2456956037,
   2730485921, 2820302411, 3259730800, 3345764771, 3516065817, 3600352804, 4094571909, 275423344,
   430227734, 506948616, 659060556, 883997877, 958139571, 1322822218, 1537002063, 1747873779,
   1955562222, 2024104815, 2227730452, 2361852424, 2428436474, 2756734187, 3204031479, 3329325298]

/-- The running eight-word SHA-256 state. -/
structure ShaState where
  a : Nat
  b : Nat
  c : Nat
  d : Nat
  e : Nat
  f : Nat
  g : Nat
  h : Nat
deriving Repr, DecidableEq

/-- The SHA-256 initial hash value. -/
def shaInit : ShaState :=
  ⟨1779033703, 3144134277, 1013904242, 2773480762,
   1359893119, 2600822924, 528734635, 1541459225⟩

/-- One step of the message-schedule extension, on the reversed schedule. -/
def shaExtend (rw : List Nat) : List Nat :=
  w32 (shaLS1 (rw.getD 1 0) + rw.getD 6 0 + shaLS0 (rw.getD 14 0) + rw.getD 15 0) :: rw

/-- Iterate a function `n` times. -/
def iterApp (f : α → α) : Nat → α → α
  | 0, x => x
  | n + 1, x => iterApp f n (f x)

/-- The 64-word message schedule of one block (given as 16 words). -/
def shaSchedule (block : List Nat) : List Nat :=
  (iterApp shaExtend 48 block.reverse).reverse

/-- One SHA-256 compression round, fed the round constant and schedule word. -/
def shaRound (s : ShaState) (kw : Nat × Nat) : ShaState :=
  let t1 := w32 (s.h + shaS1 s.e + shaCh s.e s.f s.g + kw.1 + kw.2)
  let t2 := w32 (shaS0 s.a + shaMaj s.a s.b s.c)
  ⟨w32 (t1 + t2), s.a, s.b, s.c, w32 (s.d + t1), s.e, s.f, s.g⟩

/-- SHA-256 compression of one 16-word block into the running state. -/
def shaCompress (st : ShaState) (block : List Nat) : ShaState :=
  let fin := (shaK.zip (shaSchedule block)).foldl shaRound st
  ⟨w32 (st.a + fin.a), w32 (st.b + fin.b), w32 (st.c + fin.c), w32 (st.d + fin.d),
   w32 (st.e + fin.e), w32 (st.f + fin.f), w32 (st.g + fin.g), w32 (st.h + fin.h)⟩

/-- Big-endian 4-byte serialization of a 32-bit word. -/
def be32 (x : Nat) : List Nat := [x >>> 24 % 256, x >>> 16 % 256, x >>> 8 % 256, x % 256]

/-- Big-endian 8-byte serialization of a 64-bit word. -/
def be64 (x : Nat) : List Nat :=
  [x >>> 56 % 256, x >>> 48 % 256, x >>> 40 % 256, x >>> 32 % 256,
   x >>> 24 % 256, x >>> 16 % 256, x >>> 8 % 256, x % 256]

/-- SHA-256 padding: append `128`, zero-fill to 56 mod 64, then the 64-bit
big-endian bit length. -/
def shaPad (msg : List Nat) : List Nat :=
  let zeros := (120 - (msg.length + 1) % 64) % 64
  msg ++ 128 :: List.replicate zeros 0 ++ be64 (msg.length * 8)

/-- Group four big-endian bytes at a time into 32-bit words. -/
def bytesToWords : List Nat → List Nat
  | b0 :: b1 :: b2 :: b3 :: rest => (((b0 * 256 + b1) * 256 + b2) * 256 + b3) :: bytesToWords rest
  | _ => []

/-- Fold the compression function over the padded message, 64 bytes at a
time; the fuel argument (always at least the number of blocks) makes the
recursion structural. -/
def shaBlocks : Nat → ShaState → List Nat → ShaState
  | 0, st, _ => st
  | _, st, [] => st
  | fuel + 1, st, l => shaBlocks fuel (shaCompress st (bytesToWords (l.take 64))) (l.drop 64)

/-- The SHA-256 digest (32 bytes) of a byte string. -/
def sha256Bytes (msg : List Nat) : List Nat :=
  let padded := shaPad msg
  let fin := shaBlocks padded.length shaInit padded
  be32 fin.a ++ be32 fin.b ++ be32 fin.c ++ be32 fin.d ++
  be32 fin.e ++ be32 fin.f ++ be32 fin.g ++ be32 fin.h

/-- The lowercase hex digit for a value below 16 (`encoding/hex`). -/
def hexDigit (n : Nat) : Char := if n < 10 then Char.ofNat (48 + n) else Char.ofNat (87 + n)

/-- Lowercase hex encoding of a byte string (`hex.EncodeToString`). -/
def hexOfBytes (bs : List Nat) : List Char :=
  bs.flatMap (fun b => [hexDigit (b / 16), hexDigit (b % 16)])

/-- The bytes of a string (`[]byte(s)` in Go; coincides with UTF-8 for the
ASCII strings this service hashes — generated tokens are hex strings). -/
def strBytes (s : String) : List Nat := s.data.map Char.toNat

/-- `hashToken` of `refresh_token_service.go`: the hex-encoded SHA-256 digest
of the token string. -/
def hashToken (token : String) : String := ⟨hexOfBytes (sha256Bytes (strBytes token))⟩

/-- `needle` occurs as a contiguous substring of `hay`. -/
def occursIn (needle hay : String) : Prop := ∃ pre post, hay = pre ++ needle ++ post

/-! ## Error results (`pkg/apperror`)

`AppError` values carry an HTTP status class and a message; the five
constructors used by the modelled services are embedded as an inductive. -/

/-- An application error (`apperror.AppError`), by constructor. -/
inductive AppErr where
  | badRequest (msg : String)
  | unauthorized (msg : String)
  | forbidden (msg : String)
  | notFound (msg : String)
  | internal (msg : String)
deriving Repr, DecidableEq

/-! ## The ephemeral cache (`pkg/cache/memory.go`)

A key→bytes store with TTL.  `Get`/`Exists` treat an entry whose expiry is
strictly in the past as absent; `Set` replaces the entry for the key and
stamps `now + ttl`; `Delete` removes the key.  Values are modelled as
`String` (the services only ever store decimal counters and `"1"`). -/

/-- One cache entry: key, payload, absolute expiry instant. -/
structure CacheEntry where
  key : String
  data : String
  expiresAt : Nat
deriving Repr, DecidableEq

/-- The ephemeral cache state. -/
abbrev Cache := List CacheEntry

/-- `MemoryCache.Get`: the payload for `key`, or `none` when absent or
expired (`entry.expired()` is `time.Now().After(expiresAt)`). -/
def cacheGet (now : Nat) (key : String) (c : Cache) : Option String :=
  match c.find? (fun e => e.key == key) with
  | none => none
  | some e => if e.expiresAt < now then none else some e.data

/-- `MemoryCache.Set`: replace the entry for `key`, expiring at `now + ttl`. -/
def cacheSet (key data : String) (ttl : Nat) (now : Nat) (c : Cache) : Cache :=
  c.filter (fun e => e.key != key) ++ [⟨key, data, now + ttl⟩]

/-- `MemoryCache.Delete`: drop the entry for `key`. -/
def cacheDelete (key : String) (c : Cache) : Cache :=
  c.filter (fun e => e.key != key)

/-- `MemoryCache.Exists`: whether an unexpired entry for `key` is present. -/
def cacheExists (now : Nat) (key : String) (c : Cache) : Bool :=
  (cacheGet now key c).isSome

/-! ## The persistence collaborator

Rows and query semantics follow `migrations/`, `queries/` and the
repository layer.  Each table is a Lean list; `:one` lookups are `find?`,
deletes are `filter`, and an `INSERT` into a table whose token column is
`UNIQUE` fails on a duplicate. -/

/-- A `users` row. -/
structure User where
  id : Int
  email : String
  passwordHash : Option String
  name : String
  role : String
  googleID : Option String
  authProvider : String
  emailVerifiedAt : Option Nat
  deletedAt : Option Nat
deriving Repr, DecidableEq

/-- The `users` table. -/
abbrev UserStore := List User

/-- `GetUserByEmail`: first user with the email and `deleted_at IS NULL`. -/
def getUserByEmail (email : String) (us : UserStore) : Option User :=
  us.find? (fun u => u.email == email && u.deletedAt == none)

/-- `GetUserByID`: first non-deleted user with the id. -/
def getUserByID (id : Int) (us : UserStore) : Option User :=
  us.find? (fun u => u.id == id && u.deletedAt == none)

/-- `GetUserByGoogleID`: first non-deleted user with the external id. -/
def getUserByGoogleID (gid : String) (us : UserStore) : Option User :=
  us.find? (fun u => u.googleID == some gid && u.deletedAt == none)

/-- `LinkGoogleAccount`: attach the external id and provider tag to the
non-deleted user with this id, returning the updated row, or `none` when no
row matched (`pgx.ErrNoRows`). -/
def linkGoogleAccount (gid : String) (id : Int) (us : UserStore) :
    Option (User × UserStore) :=
  match getUserByID id us with
  | none => none
  | some u =>
    some ({u with googleID := some gid, authProvider := "google"},
      us.map (fun v =>
        if v.id == id && v.deletedAt == none then
          {v with googleID := some gid, authProvider := "google"}
        else v))

/-- `CreateOAuthUser`: insert a user with no password hash, the external id,
provider tag `google`, and `email_verified_at = NOW()`. -/
def createOAuthUser (email name gid : String) (newId : Int) (now : Nat)
    (us : UserStore) : User × UserStore :=
  let u : User :=
    { id := newId, email := email, passwordHash := none, name := name,
      role := "user", googleID := some gid, authProvider := "google",
      emailVerifiedAt := some now, deletedAt := none }
  (u, us ++ [u])

/-- `UpdateUserPassword`: set the password hash of the non-deleted user with
this id, or `none` when no row matched. -/
def updateUserPassword (hash : String) (id : Int) (us : UserStore) :
    Option (User × UserStore) :=
  match getUserByID id us with
  | none => none
  | some u =>
    some ({u with passwordHash := some hash},
      us.map (fun v =>
        if v.id == id && v.deletedAt == none then {v with passwordHash := some hash} else v))

/-- A `refresh_tokens` row: the `token` column is `UNIQUE` and holds the
stored (hashed) value. -/
structure RefreshTokenRec where
  userID : Int
  token : String
  expiresAt : Nat
deriving Repr, DecidableEq

/-- The `refresh_tokens` table. -/
abbrev RefreshTokenStore := List RefreshTokenRec

/-- `CreateRefreshToken`: insert, failing on a duplicate of the `UNIQUE`
token column. -/
def createRefreshToken (p : RefreshTokenRec) (s : RefreshTokenStore) :
    Option RefreshTokenStore :=
  if s.any (fun r => r.token == p.token) then none else some (s ++ [p])

/-- `GetRefreshTokenByToken`: first row with this stored token value. -/
def getRefreshTokenByToken (tok : String) (s : RefreshTokenStore) :
    Option RefreshTokenRec :=
  s.find? (fun r => r.token == tok)

/-- `DeleteRefreshToken`: delete every row with this stored token value. -/
def deleteRefreshToken (tok : String) (s : RefreshTokenStore) : RefreshTokenStore :=
  s.filter (fun r => r.token != tok)

/-- `DeleteRefreshTokensByUserID`: delete every row owned by the user. -/
def deleteRefreshTokensByUserID (uid : Int) (s : RefreshTokenStore) : RefreshTokenStore :=
  s.filter (fun r => r.userID != uid)

/-- A `password_reset_tokens` / `email_verification_tokens` row: the token
column is `UNIQUE` and holds the plaintext value. -/
structure TokenRec where
  userID : Int
  token : String
  expiresAt : Nat
deriving Repr, DecidableEq

/-- A side-channel token table. -/
abbrev TokenStore := List TokenRec

/-- `CreatePasswordResetToken` / `CreateEmailVerificationToken`: insert,
failing on a duplicate of the `UNIQUE` token column. -/
def createSideToken (p : TokenRec) (s : TokenStore) : Option TokenStore :=
  if s.any (fun r => r.token == p.token) then none else some (s ++ [p])

/-- `GetPasswordResetTokenByToken` / `GetEmailVerificationTokenByToken`. -/
def getSideTokenByToken (tok : String) (s : TokenStore) : Option TokenRec :=
  s.find? (fun r => r.token == tok)

/-- `DeletePasswordResetToken` / `DeleteEmailVerificationToken`. -/
def deleteSideToken (tok : String) (s : TokenStore) : TokenStore :=
  s.filter (fun r => r.token != tok)

/-- `DeletePasswordResetTokensByUserID` /
`DeleteEmailVerificationTokensByUserID`. -/
def deleteSideTokensByUserID (uid : Int) (s : TokenStore) : TokenStore :=
  s.filter (fun r => r.userID != uid)

/-- An email handed to the notification sender (`email.Message`). -/
structure EmailMsg where
  recipient : String
  subject : String
  body : String
deriving Repr, DecidableEq

/-! ## The JWT helper (`pkg/token`)

`Generate`/`Parse` wrap `golang-jwt/v5`.  A token is embedded structurally
(header algorithm, claims, signature); HMAC signing is modelled as the ideal
MAC — the signature is the (algorithm, key, payload) triple, and verifying
compares triples.  `Parse` reproduces the library pipeline as configured in
the source: the key callback rejects any non-HMAC header algorithm, then the
signature, expiry, pinned issuer (`jwt.WithIssuer`) and pinned audience
(`jwt.WithAudience`) are checked. -/

/-- A JOSE header algorithm. -/
inductive SigAlg where
  | HS256 | HS384 | HS512 | RS256 | RS384 | RS512 | ES256 | ES384 | ES512 | PS256 | EdDSA | algNone
deriving Repr, DecidableEq

/-- Whether the algorithm is of the HMAC family (`*jwt.SigningMethodHMAC`). -/
def SigAlg.isHMAC : SigAlg → Bool
  | .HS256 => true
  | .HS384 => true
  | .HS512 => true
  | _ => false

/-- The claims set of `token.Claims`: the custom fields plus the registered
claims the source populates. -/
structure TokenClaims where
  userID : Int
  email : String
  role : String
  expiresAt : Option Nat
  issuedAt : Option Nat
  issuer : Option String
  audience : List String
deriving Repr, DecidableEq

/-- An idealized MAC signature: the algorithm, key and signed payload. -/
structure Signature where
  alg : SigAlg
  key : String
  payload : TokenClaims
deriving Repr, DecidableEq

/-- A decoded JWT: header algorithm, claims, signature. -/
structure JwtToken where
  alg : SigAlg
  claims : TokenClaims
  sig : Signature
deriving Repr, DecidableEq

/-- The pinned issuer claim (`jwtIssuer` in `pkg/token`). -/
def jwtIssuer : String := "fiber-golang-boilerplate"

/-- The pinned audience claim (`jwtAudience` in `pkg/token`). -/
def jwtAudience : String := "fiber-golang-boilerplate-api"

/-- `token.Generate`: an HS256 token carrying subject fields, expiry
`now + expireHour` hours, issue time, and the pinned issuer and audience. -/
def tokenGenerate (userID : Int) (email role secret : String) (expireHour now : Nat) :
    JwtToken :=
  let claims : TokenClaims :=
    { userID := userID, email := email, role := role,
      expiresAt := some (now + expireHour * 3600), issuedAt := some now,
      issuer := some jwtIssuer, audience := [jwtAudience] }
  { alg := .HS256, claims := claims, sig := ⟨.HS256, secret, claims⟩ }

/-- `token.Parse`: reject non-HMAC header algorithms in the key callback,
verify the MAC, then validate expiry, pinned issuer, and pinned audience;
`none` models every error return. -/
def tokenParse (now : Nat) (tok : JwtToken) (secret : String) : Option TokenClaims :=
  if !tok.alg.isHMAC then none
  else if tok.sig != ⟨tok.alg, secret, tok.claims⟩ then none
  else if (match tok.claims.expiresAt with | some e => decide (e < now) | none => false) then none
  else if tok.claims.issuer != some jwtIssuer then none
  else if !(tok.claims.audience.contains jwtAudience) then none
  else some tok.claims

/-! ## The refresh-token service (`refresh_token_service.go`)

The generated plaintext (`hex.EncodeToString` of 32 random bytes in the
source) is passed in as the `plainToken` argument; everything after the
random draw follows the source. -/

/-- The refresh-token lifetime, `expireDays * 24h`, in seconds. -/
def refreshExpirySecs (expireDays : Nat) : Nat := expireDays * 24 * 3600

/-- `refreshTokenService.Create`: store the SHA-256 hash of the plaintext
with its expiry and return the plaintext; a failed insert surfaces as
`InternalFailure`. -/
def refreshTokenCreate (expireDays now : Nat) (userID : Int) (plainToken : String)
    (s : RefreshTokenStore) : Except AppErr (String × RefreshTokenStore) :=
  match createRefreshToken
      ⟨userID, hashToken plainToken, now + refreshExpirySecs expireDays⟩ s with
  | none => .error (.internal "failed to store refresh token")
  | some s2 => .ok (plainToken, s2)

/-- `refreshTokenService.Verify`: look up by hash; absent rows are
`Unauthorized("invalid refresh token")`; an expired row is deleted and
reported as `Unauthorized("refresh token expired")`; otherwise the row is
returned and the store untouched. -/
def refreshTokenVerify (now : Nat) (token : String) (s : RefreshTokenStore) :
    Except AppErr RefreshTokenRec × RefreshTokenStore :=
  match getRefreshTokenByToken (hashToken token) s with
  | none => (.error (.unauthorized "invalid refresh token"), s)
  | some rt =>
    if rt.expiresAt < now then
      (.error (.unauthorized "refresh token expired"), deleteRefreshToken (hashToken token) s)
    else (.ok rt, s)

/-- `refreshTokenService.Revoke`: delete by hash. -/
def refreshTokenRevoke (token : String) (s : RefreshTokenStore) : RefreshTokenStore :=
  deleteRefreshToken (hashToken token) s

/-- `refreshTokenService.RevokeAllByUserID`. -/
def refreshTokenRevokeAll (uid : Int) (s : RefreshTokenStore) : RefreshTokenStore :=
  deleteRefreshTokensByUserID uid s

/-! ## The user service (`Authenticate`, `FindOrCreateByGoogle`)

`bcrypt.CompareHashAndPassword` is a collaborator; its success predicate is
the `passwordMatches` parameter.  The login-attempt counter lives in the
ephemeral cache under `"login_attempts:" + email`. -/

/-- `maxLoginAttempts` from the source. -/
def maxLoginAttempts : Nat := 5

/-- `lockoutDuration` (15 minutes), in seconds. -/
def lockoutDurationSecs : Nat := 15 * 60

/-- The cache key for an email's login-attempt counter. -/
def loginAttemptsKey (email : String) : String := "login_attempts:" ++ email

/-- `strconv.Atoi` as used on the stored counter: the numeric value of an
all-digit string, and 0 on a parse error (the source discards the error). -/
def atoiNat (s : String) : Nat :=
  if s.data.isEmpty then 0
  else if s.data.all (fun c => c.isDigit) then
    s.data.foldl (fun acc c => acc * 10 + (c.toNat - 48)) 0
  else 0

/-- `userService.incrementLoginAttempts`: 1 on a fresh key, previous + 1
otherwise, stored with the full lockout window as TTL. -/
def incrementLoginAttempts (now : Nat) (key : String) (c : Cache) : Cache :=
  let attempts := match cacheGet now key c with
    | none => 1
    | some data => atoiNat data + 1
  cacheSet key (Nat.repr attempts) lockoutDurationSecs now c

/-- `userService.Authenticate`: lockout check against the cached counter,
then user lookup, OAuth-only check, password comparison (each failure
incrementing the counter), the verification-requirement gate, and on
success the counter is cleared. -/
def userAuthenticate (passwordMatches : String → String → Bool)
    (requireEmailVerification : Bool) (now : Nat) (email password : String)
    (users : UserStore) (c : Cache) : Except AppErr User × Cache :=
  let cacheKey := loginAttemptsKey email
  let locked := match cacheGet now cacheKey c with
    | some data => decide (maxLoginAttempts ≤ atoiNat data)
    | none => false
  if locked then
    (.error (.badRequest "account temporarily locked, try again in 15 minutes"), c)
  else
    match getUserByEmail email users with
    | none => (.error (.unauthorized "invalid email or password"),
        incrementLoginAttempts now cacheKey c)
    | some user =>
      match user.passwordHash with
      | none => (.error (.unauthorized "invalid email or password"),
          incrementLoginAttempts now cacheKey c)
      | some hash =>
        if !passwordMatches hash password then
          (.error (.unauthorized "invalid email or password"),
            incrementLoginAttempts now cacheKey c)
        else if requireEmailVerification && user.emailVerifiedAt == none then
          (.error (.forbidden "email not verified"), c)
        else
          (.ok user, cacheDelete cacheKey c)

/-- `userService.FindOrCreateByGoogle`: find by external id (read-only hot
path), else link by email, else create an auto-verified OAuth user; the id
of a freshly inserted row (`BIGSERIAL`) arrives as `newId`. -/
def findOrCreateByGoogle (googleID email name : String) (newId : Int) (now : Nat)
    (users : UserStore) : Except AppErr (User × UserStore) :=
  match getUserByGoogleID googleID users with
  | some u => .ok (u, users)
  | none =>
    match getUserByEmail email users with
    | some existing =>
      match linkGoogleAccount googleID existing.id users with
      | some (linked, users2) => .ok (linked, users2)
      | none => .error (.internal "failed to link google account")
    | none => .ok (createOAuthUser email name googleID newId now users)

/-! ## The password-reset service (`passwordResetService`)

State groups the four collaborators the service touches plus the emails
handed to the sender.  The random 32-byte token draw arrives as `newToken`;
`randOk`/`createOk` model the two fallible collaborator calls
(`rand.Read` and `resetRepo.Create`).  A send failure is logged, never
surfaced, so dispatch is modelled as an unconditional append. -/

/-- The state visible to the password-reset service. -/
structure ResetState where
  users : UserStore
  resetTokens : TokenStore
  refreshTokens : RefreshTokenStore
  cache : Cache
  sent : List EmailMsg
deriving Repr, DecidableEq

/-- The rate-limit cache key of `ForgotPassword`. -/
def passwordResetKey (email : String) : String := "password_reset:" ++ email

/-- The reset email for a user (`Password Reset Request`, link built from the
frontend URL and the plaintext token). -/
def resetEmail (recipient frontendURL token : String) : EmailMsg :=
  { recipient := recipient, subject := "Password Reset Request",
    body := "<p>Click <a href=\"" ++ frontendURL ++ "/reset-password?token=" ++ token ++
      "\">here</a> to reset your password. This link expires in 1 hour.</p>" }

/-- `passwordResetService.ForgotPassword`: rate-limit gate, silent success on
an unknown email, token generation, delete-old/create-new (1-hour expiry),
then the rate-limit key, then the email. -/
def forgotPassword (now : Nat) (email newToken frontendURL : String)
    (randOk createOk : Bool) (st : ResetState) : Except AppErr Unit × ResetState :=
  let cacheKey := passwordResetKey email
  if cacheExists now cacheKey st.cache then
    (.error (.badRequest "please wait before requesting another password reset"), st)
  else
    match getUserByEmail email st.users with
    | none => (.ok (), st)
    | some user =>
      if !randOk then (.error (.internal "failed to generate reset token"), st)
      else
        let st1 := {st with resetTokens := deleteSideTokensByUserID user.id st.resetTokens}
        match (if createOk then createSideToken ⟨user.id, newToken, now + 3600⟩ st1.resetTokens
               else none) with
        | none => (.error (.internal "failed to create reset token"), st1)
        | some rts =>
          let st2 := {st1 with
            resetTokens := rts,
            cache := cacheSet cacheKey "1" 60 now st1.cache}
          (.ok (), {st2 with sent := st2.sent ++ [resetEmail user.email frontendURL newToken]})

/-- `passwordResetService.ResetPassword`: look up by plaintext token; absent
rows are `InvalidOrExpired`; an expired row is deleted and reported; else
the password is updated to the bcrypt output (`bcryptHash`), the token
deleted, and every refresh token of the user revoked. -/
def resetPassword (now : Nat) (token bcryptHash : String) (st : ResetState) :
    Except AppErr Unit × ResetState :=
  match getSideTokenByToken token st.resetTokens with
  | none => (.error (.badRequest "invalid or expired reset token"), st)
  | some rt =>
    if rt.expiresAt < now then
      (.error (.badRequest "reset token has expired"),
        {st with resetTokens := deleteSideToken token st.resetTokens})
    else
      match updateUserPassword bcryptHash rt.userID st.users with
      | none => (.error (.internal "failed to update password"), st)
      | some (_, users2) =>
        (.ok (), {st with
          users := users2,
          resetTokens := deleteSideToken token st.resetTokens,
          refreshTokens := deleteRefreshTokensByUserID rt.userID st.refreshTokens})

/-! ## The email-verification service (`emailVerificationService`) -/

/-- The state visible to the email-verification service. -/
structure VerifState where
  users : UserStore
  verifTokens : TokenStore
  cache : Cache
  sent : List EmailMsg
deriving Repr, DecidableEq

/-- The rate-limit cache key of `ResendVerification`. -/
def emailVerificationKey (email : String) : String := "email_verification:" ++ email

/-- The verification email for a user. -/
def verificationEmail (recipient frontURL token : String) : EmailMsg :=
  { recipient := recipient, subject := "Verify Your Email Address",
    body := "<p>Click <a href=\"" ++ frontURL ++ "/verify-email?token=" ++ token ++
      "\">here</a> to verify your email address. This link expires in 24 hours.</p>" }

/-- `emailVerificationService.SendVerification`: delete the user's old
tokens, create a fresh one (24-hour expiry), and send the link. -/
def sendVerification (now : Nat) (userID : Int) (userEmail newToken frontURL : String)
    (st : VerifState) : Except AppErr Unit × VerifState :=
  let st1 := {st with verifTokens := deleteSideTokensByUserID userID st.verifTokens}
  match createSideToken ⟨userID, newToken, now + 24 * 3600⟩ st1.verifTokens with
  | none => (.error (.internal "create verification token"), st1)
  | some vts =>
    (.ok (), {st1 with
      verifTokens := vts,
      sent := st1.sent ++ [verificationEmail userEmail frontURL newToken]})

/-- `emailVerificationService.ResendVerification`: rate-limit gate, silent
success on an unknown email, silent success when already verified, else set
the rate-limit key and send a fresh verification email. -/
def resendVerification (now : Nat) (emailAddr newToken frontURL : String)
    (st : VerifState) : Except AppErr Unit × VerifState :=
  let cacheKey := emailVerificationKey emailAddr
  if cacheExists now cacheKey st.cache then
    (.error (.badRequest "please wait before requesting another verification email"), st)
  else
    match getUserByEmail emailAddr st.users with
    | none => (.ok (), st)
    | some user =>
      if user.emailVerifiedAt.isSome then (.ok (), st)
      else
        sendVerification now user.id user.email newToken frontURL
          {st with cache := cacheSet cacheKey "1" 60 now st.cache}

/-! ## The `Refresh` handler (`auth_handler.go`)

The caller-side rotation protocol: verify, revoke (a failure aborts before
any minting), load the user, mint the access token, create the new refresh
token.  `revokeFails` injects a failure of the revoke delete (which then
leaves the store untouched). -/

/-- The outcome of `AuthHandler.Refresh`: a `LoginResponse`-shaped success
(access token, new plaintext refresh token, user) or the error, plus the
refresh-token store it leaves behind. -/
structure RefreshOut where
  result : Except AppErr (JwtToken × String × User)
  store : RefreshTokenStore
deriving Repr

/-- `AuthHandler.Refresh`: the verify → revoke → mint sequence. -/
def authHandlerRefresh (now : Nat) (jwtSecret : String) (jwtExpireHour expireDays : Nat)
    (reqToken newPlain : String) (revokeFails : Bool)
    (users : UserStore) (s : RefreshTokenStore) : RefreshOut :=
  match refreshTokenVerify now reqToken s with
  | (.error e, s1) => ⟨.error e, s1⟩
  | (.ok rt, s1) =>
    if revokeFails then ⟨.error (.internal "failed to revoke refresh token"), s1⟩
    else
      let s2 := refreshTokenRevoke reqToken s1
      match getUserByID rt.userID users with
      | none => ⟨.error (.notFound "user not found"), s2⟩
      | some user =>
        let access := tokenGenerate user.id user.email user.role jwtSecret jwtExpireHour now
        match refreshTokenCreate expireDays now rt.userID newPlain s2 with
        | .error e => ⟨.error e, s2⟩
        | .ok (plain, s3) => ⟨.ok (access, plain, user), s3⟩

set_option maxRecDepth 4096

/-! ## Sanity checks of the hash embedding (FIPS 180-4 test vectors) -/

/-- Test vector: the digest of `"abc"`. -/
theorem hashToken_abc :
    hashToken "abc" = "ba7816bf8f01cfea414140de5dae2223b00361a396177a9cb410ff61f20015ad" := by
  decide

/-- Test vector: the digest of the empty string. -/
theorem hashToken_empty :
    hashToken "" = "e3b0c44298fc1c149afbf4c8996fb92427ae41e4649b934ca495991b7852b855" := by
  decide

/-! ## Helper lemmas -/

/-- `find?` over an append whose first part has no match. -/
theorem find?_append_of_eq_none {α} {p : α → Bool} {l₁ : List α} (l₂ : List α)
    (h : l₁.find? p = none) : (l₁ ++ l₂).find? p = l₂.find? p := by
  simp [List.find?_append, h]

/-- Filtering on the complement of an equality test removes every match of
that test. -/
theorem find?_filter_bne {α β} [BEq β] (f : α → β) (v : β) (l : List α) :
    (l.filter (fun x => f x != v)).find? (fun x => f x == v) = none := by
  apply List.find?_eq_none.mpr
  intro x hx
  have h2 := (List.mem_filter.mp hx).2
  simp only [bne, Bool.not_eq_true'] at h2
  simp [h2]

/-- A fresh `cacheSet` is what the same key reads back, until its expiry. -/
theorem cacheGet_set_self (now ts ttl : Nat) (key data : String) (c : Cache) :
    cacheGet now key (cacheSet key data ttl ts c) =
      if ts + ttl < now then none else some data := by
  unfold cacheGet cacheSet
  rw [find?_append_of_eq_none _ (find?_filter_bne (fun e => e.key) key c)]
  simp [List.find?]

/-- A deleted key reads back as absent. -/
theorem cacheGet_delete_self (now : Nat) (key : String) (c : Cache) :
    cacheGet now key (cacheDelete key c) = none := by
  unfold cacheGet cacheDelete
  rw [find?_filter_bne (fun e => e.key) key c]

/-- A deleted stored-token value no longer resolves. -/
theorem getRefreshToken_delete_self (tok : String) (s : RefreshTokenStore) :
    getRefreshTokenByToken tok (deleteRefreshToken tok s) = none := by
  unfold getRefreshTokenByToken deleteRefreshToken
  exact find?_filter_bne (fun r => r.token) tok s

/-- `find?` across a pointwise update whose predicate tracks the original
list's: the updated first match is found. -/
theorem find?_map_congr {α} {p q : α → Bool} {f : α → α} {l : List α}
    (hcong : ∀ x ∈ l, p (f x) = q x) :
    ∀ u, l.find? q = some u → (l.map f).find? p = some (f u) := by
  induction l with
  | nil => intro u h; simp at h
  | cons x t ih =>
    intro u h
    have hx := hcong x (by simp)
    by_cases hq : q x = true
    · rw [List.find?_cons_of_pos _ hq] at h
      cases h
      simp [List.find?_cons_of_pos, hx, hq]
    · have hq' : q x = false := by simpa using hq
      rw [List.find?_cons_of_neg _ (by simp [hq'])] at h
      have := ih (fun y hy => hcong y (by simp [hy])) u h
      simpa [List.find?_cons_of_neg, hx, hq'] using this

/-- `hexOfBytes` doubles the length. -/
theorem length_hexOfBytes (bs : List Nat) : (hexOfBytes bs).length = 2 * bs.length := by
  induction bs with
  | nil => rfl
  | cons b t ih =>
    simp only [hexOfBytes, List.flatMap_cons, List.length_append] at *
    simp [ih]
    omega

/-- A SHA-256 digest is 32 bytes, whatever the message. -/
theorem length_sha256Bytes (msg : List Nat) : (sha256Bytes msg).length = 32 := by
  unfold sha256Bytes be32
  simp

/-- A stored token hash is 64 characters, whatever the plaintext. -/
theorem length_hashToken (t : String) : (hashToken t).length = 64 := by
  show (hexOfBytes (sha256Bytes (strBytes t))).length = 64
  rw [length_hexOfBytes, length_sha256Bytes]

/-- Every string occurs in itself. -/
theorem occursIn_self (p : String) : occursIn p p := ⟨"", "", by simp⟩

/-- A substring occurrence between strings of equal length is an equality. -/
theorem eq_of_occursIn_of_length {p s : String} (hocc : occursIn p s)
    (hlen : p.length = s.length) : p = s := by
  obtain ⟨pre, post, rfl⟩ := hocc
  have h1 : (pre ++ p ++ post).length = pre.length + p.length + post.length := by
    simp [String.length_append]
  have hpre : pre.length = 0 := by omega
  have hpost : post.length = 0 := by omega
  have hpre' : pre.data = [] := List.length_eq_zero.mp hpre
  have hpost' : post.data = [] := List.length_eq_zero.mp hpost
  apply String.ext
  simp [String.data_append, hpre', hpost']

/-! ## C5 — verification of a presented refresh token -/

/-- C5: `VerifyRefreshToken` looks the store up by the SHA-256 hash of the
supplied value; an unmatched value yields `InvalidOrUnknown`
(`Unauthorized("invalid refresh token")`); a matched but expired row is
deleted and yields `Expired` (`Unauthorized("refresh token expired")`), so
the same token thereafter yields `InvalidOrUnknown`; a live row is returned
with the store untouched. -/
theorem C5_verify_refresh_token (now now2 : Nat) (t : String) (s : RefreshTokenStore) :
    (getRefreshTokenByToken (hashToken t) s = none →
      refreshTokenVerify now t s = (.error (.unauthorized "invalid refresh token"), s)) ∧
    (∀ rt, getRefreshTokenByToken (hashToken t) s = some rt → rt.expiresAt < now →
      refreshTokenVerify now t s =
        (.error (.unauthorized "refresh token expired"), deleteRefreshToken (hashToken t) s) ∧
      (refreshTokenVerify now2 t (deleteRefreshToken (hashToken t) s)).1 =
        .error (.unauthorized "invalid refresh token")) ∧
    (∀ rt, getRefreshTokenByToken (hashToken t) s = some rt → ¬ rt.expiresAt < now →
      refreshTokenVerify now t s = (.ok rt, s)) := by
  refine ⟨fun h => ?_, fun rt h hexp => ⟨?_, ?_⟩, fun rt h hlive => ?_⟩
  · unfold refreshTokenVerify
    rw [h]
  · unfold refreshTokenVerify
    rw [h]
    simp [hexp]
  · unfold refreshTokenVerify
    rw [getRefreshToken_delete_self]
  · unfold refreshTokenVerify
    rw [h]
    simp [hlive]

/-- C5, exercised: a live token verifies, an expired one is reported expired,
and an unknown one is rejected, on a concrete one-row store. -/
theorem C5_verify_refresh_token_witness :
    refreshTokenVerify 50 "aa" [⟨1, hashToken "aa", 100⟩] =
      (.ok ⟨1, hashToken "aa", 100⟩, [⟨1, hashToken "aa", 100⟩]) ∧
    refreshTokenVerify 200 "aa" [⟨1, hashToken "aa", 100⟩] =
      (.error (.unauthorized "refresh token expired"),
        deleteRefreshToken (hashToken "aa") [⟨1, hashToken "aa", 100⟩]) ∧
    refreshTokenVerify 60 "bb" [⟨1, hashToken "aa", 100⟩] =
      (.error (.unauthorized "invalid refresh token"), [⟨1, hashToken "aa", 100⟩]) :=
  ⟨(C5_verify_refresh_token 50 0 "aa" [⟨1, hashToken "aa", 100⟩]).2.2
      ⟨1, hashToken "aa", 100⟩ rfl (by decide),
   ((C5_verify_refresh_token 200 0 "aa" [⟨1, hashToken "aa", 100⟩]).2.1
      ⟨1, hashToken "aa", 100⟩ rfl (by decide)).1,
   (C5_verify_refresh_token 60 0 "bb" [⟨1, hashToken "aa", 100⟩]).1 (by decide)⟩

/-! ## C3 — hash-only storage of issued refresh tokens -/

/-- C3: `IssueRefreshToken` persists exactly the hex-encoded SHA-256 hash of
the generated plaintext and hands the plaintext back to the caller at
creation; provided the plaintext is 64 characters (the hex encoding of the
32 random bytes), is not a SHA-256 fixed point, and no prior row contains
it, no row of the resulting store equals or contains the plaintext. -/
theorem C3_hash_only_storage (expireDays now : Nat) (uid : Int) (p : String)
    (s : RefreshTokenStore)
    (hfresh : ∀ r ∈ s, r.token ≠ hashToken p)
    (hfix : hashToken p ≠ p)
    (hlen : p.length = 64)
    (hold : ∀ r ∈ s, ¬ occursIn p r.token) :
    refreshTokenCreate expireDays now uid p s =
      .ok (p, s ++ [⟨uid, hashToken p, now + refreshExpirySecs expireDays⟩]) ∧
    ∀ r ∈ s ++ [⟨uid, hashToken p, now + refreshExpirySecs expireDays⟩],
      r.token ≠ p ∧ ¬ occursIn p r.token := by
  constructor
  · unfold refreshTokenCreate createRefreshToken
    have hany : s.any (fun r => r.token == hashToken p) = false :=
      List.any_eq_false.mpr (fun r hr => by simp [hfresh r hr])
    simp [hany]
  · intro r hr
    rcases List.mem_append.mp hr with h | h
    · refine ⟨fun he => hold r h ?_, hold r h⟩
      rw [he]
      exact occursIn_self p
    · have h' : r = ⟨uid, hashToken p, now + refreshExpirySecs expireDays⟩ :=
        List.mem_singleton.mp h
      subst h'
      refine ⟨hfix, fun hocc => ?_⟩
      have := eq_of_occursIn_of_length hocc (by rw [hlen, length_hashToken])
      exact hfix this.symm

/-- C3, exercised at a concrete 64-character plaintext on an empty store. -/
theorem C3_hash_only_storage_witness :
    refreshTokenCreate 7 1000 1
        "aaaaaaaaaaaaaaaaaaaaaaaaaaaaaaaaaaaaaaaaaaaaaaaaaaaaaaaaaaaaaaaa" [] =
      .ok ("aaaaaaaaaaaaaaaaaaaaaaaaaaaaaaaaaaaaaaaaaaaaaaaaaaaaaaaaaaaaaaaa",
        [⟨1, hashToken "aaaaaaaaaaaaaaaaaaaaaaaaaaaaaaaaaaaaaaaaaaaaaaaaaaaaaaaaaaaaaaaa",
          1000 + refreshExpirySecs 7⟩]) ∧
    (RefreshTokenRec.token
        ⟨1, hashToken "aaaaaaaaaaaaaaaaaaaaaaaaaaaaaaaaaaaaaaaaaaaaaaaaaaaaaaaaaaaaaaaa",
          1000 + refreshExpirySecs 7⟩ ≠
      "aaaaaaaaaaaaaaaaaaaaaaaaaaaaaaaaaaaaaaaaaaaaaaaaaaaaaaaaaaaaaaaa") ∧
    ¬ occursIn "aaaaaaaaaaaaaaaaaaaaaaaaaaaaaaaaaaaaaaaaaaaaaaaaaaaaaaaaaaaaaaaa"
        (hashToken "aaaaaaaaaaaaaaaaaaaaaaaaaaaaaaaaaaaaaaaaaaaaaaaaaaaaaaaaaaaaaaaa") := by
  have h := C3_hash_only_storage 7 1000 1
    "aaaaaaaaaaaaaaaaaaaaaaaaaaaaaaaaaaaaaaaaaaaaaaaaaaaaaaaaaaaaaaaa" []
    (by simp) (by decide) (by decide) (by simp)
  exact ⟨h.1,
    (h.2 ⟨1, hashToken "aaaaaaaaaaaaaaaaaaaaaaaaaaaaaaaaaaaaaaaaaaaaaaaaaaaaaaaaaaaaaaaa",
      1000 + refreshExpirySecs 7⟩ (by simp)).1,
    (h.2 ⟨1, hashToken "aaaaaaaaaaaaaaaaaaaaaaaaaaaaaaaaaaaaaaaaaaaaaaaaaaaaaaaaaaaaaaaa",
      1000 + refreshExpirySecs 7⟩ (by simp)).2⟩

/-! ## C1 — rotation invalidates reuse -/

/-- C1: a successful `Refresh` (verify, revoke the presented token, mint an
access token and a new refresh token) leaves a store in which the presented
token verifies as `InvalidOrUnknown`; and when the revoke step fails the
refresh aborts with an internal error and the store is exactly the one the
successful verify left — no new token pair is issued. -/
theorem C1_rotation_invalidates_reuse
    (now now2 jwtExpireHour expireDays : Nat) (jwtSecret reqToken newPlain : String)
    (users : UserStore) (s : RefreshTokenStore) (rt : RefreshTokenRec) (user : User)
    (hfound : getRefreshTokenByToken (hashToken reqToken) s = some rt)
    (hlive : ¬ rt.expiresAt < now)
    (huser : getUserByID rt.userID users = some user)
    (hfresh : ∀ r ∈ s, r.token ≠ hashToken newPlain)
    (hne : hashToken newPlain ≠ hashToken reqToken) :
    authHandlerRefresh now jwtSecret jwtExpireHour expireDays reqToken newPlain false users s =
      ⟨.ok (tokenGenerate user.id user.email user.role jwtSecret jwtExpireHour now,
          newPlain, user),
        deleteRefreshToken (hashToken reqToken) s ++
          [⟨rt.userID, hashToken newPlain, now + refreshExpirySecs expireDays⟩]⟩ ∧
    (refreshTokenVerify now2 reqToken
        (deleteRefreshToken (hashToken reqToken) s ++
          [⟨rt.userID, hashToken newPlain, now + refreshExpirySecs expireDays⟩])).1 =
      .error (.unauthorized "invalid refresh token") ∧
    authHandlerRefresh now jwtSecret jwtExpireHour expireDays reqToken newPlain true users s =
      ⟨.error (.internal "failed to revoke refresh token"), s⟩ := by
  have hver : refreshTokenVerify now reqToken s = (.ok rt, s) := by
    unfold refreshTokenVerify
    rw [hfound]
    simp [hlive]
  have hany : (deleteRefreshToken (hashToken reqToken) s).any
      (fun r => r.token == hashToken newPlain) = false := by
    apply List.any_eq_false.mpr
    intro r hr
    have hmem : r ∈ s := List.mem_of_mem_filter hr
    simp [hfresh r hmem]
  have hnone : getRefreshTokenByToken (hashToken reqToken)
      (deleteRefreshToken (hashToken reqToken) s ++
        [⟨rt.userID, hashToken newPlain, now + refreshExpirySecs expireDays⟩]) = none := by
    unfold getRefreshTokenByToken deleteRefreshToken
    rw [find?_append_of_eq_none _ (find?_filter_bne (fun r => r.token) (hashToken reqToken) s)]
    have hbeq : (hashToken newPlain == hashToken reqToken) = false :=
      beq_eq_false_iff_ne.mpr hne
    simp [List.find?, hbeq]
  refine ⟨?_, ?_, ?_⟩
  · unfold authHandlerRefresh
    rw [hver]
    simp only [Bool.false_eq_true, if_false, refreshTokenRevoke, huser]
    unfold refreshTokenCreate createRefreshToken
    simp [hany]
  · unfold refreshTokenVerify
    rw [hnone]
  · unfold authHandlerRefresh
    rw [hver]
    simp

/-- C1, exercised on a concrete one-row store: rotating `"aa"` into `"bb"`
succeeds, a replay of `"aa"` is rejected, and a failed revoke aborts with
the store unchanged. -/
theorem C1_rotation_invalidates_reuse_witness :
    authHandlerRefresh 50 "secret" 2 7 "aa" "bb" false
        [⟨1, "a@x.com", some "h", "A", "user", none, "local", some 5, none⟩]
        [⟨1, hashToken "aa", 100⟩] =
      ⟨.ok (tokenGenerate 1 "a@x.com" "user" "secret" 2 50, "bb",
          ⟨1, "a@x.com", some "h", "A", "user", none, "local", some 5, none⟩),
        deleteRefreshToken (hashToken "aa") [⟨1, hashToken "aa", 100⟩] ++
          [⟨1, hashToken "bb", 50 + refreshExpirySecs 7⟩]⟩ ∧
    (refreshTokenVerify 60 "aa"
        (deleteRefreshToken (hashToken "aa") [⟨1, hashToken "aa", 100⟩] ++
          [⟨1, hashToken "bb", 50 + refreshExpirySecs 7⟩])).1 =
      .error (.unauthorized "invalid refresh token") ∧
    authHandlerRefresh 50 "secret" 2 7 "aa" "bb" true
        [⟨1, "a@x.com", some "h", "A", "user", none, "local", some 5, none⟩]
        [⟨1, hashToken "aa", 100⟩] =
      ⟨.error (.internal "failed to revoke refresh token"), [⟨1, hashToken "aa", 100⟩]⟩ :=
  C1_rotation_invalidates_reuse 50 60 2 7 "secret" "aa" "bb"
    [⟨1, "a@x.com", some "h", "A", "user", none, "local", some 5, none⟩]
    [⟨1, hashToken "aa", 100⟩] ⟨1, hashToken "aa", 100⟩
    ⟨1, "a@x.com", some "h", "A", "user", none, "local", some 5, none⟩
    rfl (by decide) rfl (by decide) (by decide)

/-! ## C4 — consuming a reset token -/

/-- After the password-update write, the same user resolves with the new
hash and nothing else about the row changed. -/
theorem getUserByID_map_password (uid : Int) (nh : String) (us : UserStore) (u : User)
    (hu : getUserByID uid us = some u) :
    getUserByID uid (us.map (fun v =>
      if v.id == uid && v.deletedAt == none then {v with passwordHash := some nh} else v)) =
    some {u with passwordHash := some nh} := by
  unfold getUserByID at hu ⊢
  induction us with
  | nil => simp at hu
  | cons x t ih =>
    by_cases hx : (x.id == uid && x.deletedAt == none) = true
    · simp only [List.find?, hx] at hu
      injection hu with hu
      subst hu
      simp [List.find?, hx]
    · have hx' : (x.id == uid && x.deletedAt == none) = false := by simpa using hx
      simp only [List.find?, hx'] at hu
      simp only [List.map_cons, List.find?, hx', Bool.false_eq_true, if_false]
      exact ih hu

/-- C4: `ResetPassword` with a valid unexpired token updates the owner's
password hash to the bcrypt output, deletes the reset-token row, and revokes
every refresh token of that user, after which any refresh token previously
issued to the user fails verification; an absent token yields
`InvalidOrExpired` with the state untouched, and an expired one is deleted
and yields `Expired`, the user's credential unchanged in both cases. -/
theorem C4_consume_reset (now now2 : Nat) (tok newHash : String) (st : ResetState) :
    (getSideTokenByToken tok st.resetTokens = none →
      resetPassword now tok newHash st =
        (.error (.badRequest "invalid or expired reset token"), st)) ∧
    (∀ rt, getSideTokenByToken tok st.resetTokens = some rt → rt.expiresAt < now →
      resetPassword now tok newHash st =
        (.error (.badRequest "reset token has expired"),
          {st with resetTokens := deleteSideToken tok st.resetTokens})) ∧
    (∀ rt u, getSideTokenByToken tok st.resetTokens = some rt → ¬ rt.expiresAt < now →
      getUserByID rt.userID st.users = some u →
      resetPassword now tok newHash st =
        (.ok (), {st with
          users := st.users.map (fun v =>
            if v.id == rt.userID && v.deletedAt == none
            then {v with passwordHash := some newHash} else v),
          resetTokens := deleteSideToken tok st.resetTokens,
          refreshTokens := deleteRefreshTokensByUserID rt.userID st.refreshTokens}) ∧
      getUserByID rt.userID (st.users.map (fun v =>
          if v.id == rt.userID && v.deletedAt == none
          then {v with passwordHash := some newHash} else v)) =
        some {u with passwordHash := some newHash} ∧
      getSideTokenByToken tok (deleteSideToken tok st.resetTokens) = none ∧
      (∀ T, (∀ r ∈ st.refreshTokens, r.token = hashToken T → r.userID = rt.userID) →
        (refreshTokenVerify now2 T
            (deleteRefreshTokensByUserID rt.userID st.refreshTokens)).1 =
          .error (.unauthorized "invalid refresh token"))) := by
  refine ⟨fun h => ?_, fun rt h hexp => ?_, fun rt u h hlive hu => ⟨?_, ?_, ?_, ?_⟩⟩
  · unfold resetPassword
    rw [h]
  · unfold resetPassword
    rw [h]
    simp [hexp]
  · unfold resetPassword
    rw [h]
    have hupd : updateUserPassword newHash rt.userID st.users =
        some ({u with passwordHash := some newHash},
          st.users.map (fun v =>
            if v.id == rt.userID && v.deletedAt == none
            then {v with passwordHash := some newHash} else v)) := by
      unfold updateUserPassword
      rw [hu]
    simp [hlive, hupd]
  · exact getUserByID_map_password rt.userID newHash st.users u hu
  · unfold getSideTokenByToken deleteSideToken
    exact find?_filter_bne (fun r => r.token) tok st.resetTokens
  · intro T huniq
    have hnone : getRefreshTokenByToken (hashToken T)
        (deleteRefreshTokensByUserID rt.userID st.refreshTokens) = none := by
      unfold getRefreshTokenByToken deleteRefreshTokensByUserID
      apply List.find?_eq_none.mpr
      intro r hr
      obtain ⟨hmem, hne⟩ := List.mem_filter.mp hr
      intro hbeq
      have : r.token = hashToken T := by simpa using hbeq
      have := huniq r hmem this
      simp [this] at hne
    unfold refreshTokenVerify
    rw [hnone]

/-- C4, exercised on a concrete state: a valid token rewrites the password
hash, deletes the token row, clears the user's refresh tokens, and the old
refresh token `"aa"` no longer verifies. -/
theorem C4_consume_reset_witness :
    resetPassword 50 "rtok" "newh"
        ⟨[⟨1, "a@x.com", some "old", "A", "user", none, "local", some 5, none⟩],
         [⟨1, "rtok", 100⟩], [⟨1, hashToken "aa", 500⟩], [], []⟩ =
      (.ok (), ⟨[⟨1, "a@x.com", some "old", "A", "user", none, "local", some 5,
            none⟩].map (fun v =>
            if v.id == (1 : Int) && v.deletedAt == none
            then {v with passwordHash := some "newh"} else v),
        deleteSideToken "rtok" [⟨1, "rtok", 100⟩],
        deleteRefreshTokensByUserID 1 [⟨1, hashToken "aa", 500⟩], [], []⟩) ∧
    getUserByID 1 ([⟨1, "a@x.com", some "old", "A", "user", none, "local", some 5,
          none⟩].map (fun v =>
          if v.id == (1 : Int) && v.deletedAt == none
          then {v with passwordHash := some "newh"} else v)) =
      some ⟨1, "a@x.com", some "newh", "A", "user", none, "local", some 5, none⟩ ∧
    getSideTokenByToken "rtok" (deleteSideToken "rtok" [⟨1, "rtok", 100⟩]) = none ∧
    (refreshTokenVerify 60 "aa"
        (deleteRefreshTokensByUserID 1 [⟨1, hashToken "aa", 500⟩])).1 =
      .error (.unauthorized "invalid refresh token") := by
  have h := (C4_consume_reset 50 60 "rtok" "newh"
    ⟨[⟨1, "a@x.com", some "old", "A", "user", none, "local", some 5, none⟩],
     [⟨1, "rtok", 100⟩], [⟨1, hashToken "aa", 500⟩], [], []⟩).2.2
    ⟨1, "rtok", 100⟩ ⟨1, "a@x.com", some "old", "A", "user", none, "local", some 5, none⟩
    rfl (by decide) rfl
  exact ⟨h.1, h.2.1, h.2.2.1, h.2.2.2 "aa" (by decide)⟩

/-! ## C6 — OAuth linking stability -/

/-- After attaching an external id to the matched row, that row (and no
other) resolves by external id. -/
theorem getUserByGoogleID_map_link (gid : String) (eid : Int) (us : UserStore) (x0 : User)
    (hnone : getUserByGoogleID gid us = none)
    (hx : getUserByID eid us = some x0) :
    getUserByGoogleID gid (us.map (fun v =>
      if v.id == eid && v.deletedAt == none
      then {v with googleID := some gid, authProvider := "google"} else v)) =
    some {x0 with googleID := some gid, authProvider := "google"} := by
  unfold getUserByID at hx
  unfold getUserByGoogleID at hnone ⊢
  induction us with
  | nil => simp at hx
  | cons x t ih =>
    have hnone_t : List.find? (fun u => u.googleID == some gid && u.deletedAt == none) t =
        none :=
      List.find?_eq_none.mpr (fun y hy =>
        List.find?_eq_none.mp hnone y (List.mem_cons_of_mem x hy))
    have hpx : (x.googleID == some gid && x.deletedAt == none) = false := by
      have := List.find?_eq_none.mp hnone x (by simp)
      simpa using this
    by_cases hq : (x.id == eid && x.deletedAt == none) = true
    · simp only [List.find?, hq] at hx
      injection hx with hx
      subst hx
      have hand := hq
      simp only [Bool.and_eq_true] at hand
      have hid : x.id = eid := by simpa using hand.1
      have hdel : x.deletedAt = none := by simpa using hand.2
      simp [List.find?, hid, hdel]
    · have hq' : (x.id == eid && x.deletedAt == none) = false := by simpa using hq
      simp only [List.find?, hq'] at hx
      simp only [List.map_cons, List.find?, hq', Bool.false_eq_true, if_false, hpx]
      exact ih hnone_t hx

/-- A freshly appended OAuth row resolves by external id when no earlier row
does. -/
theorem getUserByGoogleID_append_new (gid : String) (us : UserStore) (nu : User)
    (hnone : getUserByGoogleID gid us = none)
    (hmatch : (nu.googleID == some gid && nu.deletedAt == none) = true) :
    getUserByGoogleID gid (us ++ [nu]) = some nu := by
  unfold getUserByGoogleID at hnone ⊢
  rw [find?_append_of_eq_none _ hnone]
  simp [List.find?, hmatch]

/-- C6: when a user already carries the external id, `FindOrCreateByGoogle`
returns it with no store write; a second call after any successful call
returns the same user and the same store (so the same user id, and never a
second account); and when only the email matches, the external id is
attached to that existing row — same row id, no row added. -/
theorem C6_oauth_linking_stability (gid email name email2 name2 : String)
    (newId newId2 : Int) (now now2 : Nat) (users : UserStore) :
    (∀ u, getUserByGoogleID gid users = some u →
      findOrCreateByGoogle gid email name newId now users = .ok (u, users)) ∧
    (∀ u1 users1, findOrCreateByGoogle gid email name newId now users = .ok (u1, users1) →
      findOrCreateByGoogle gid email2 name2 newId2 now2 users1 = .ok (u1, users1)) ∧
    (∀ e, getUserByGoogleID gid users = none → getUserByEmail email users = some e →
      ∃ x0, getUserByID e.id users = some x0 ∧ x0.id = e.id ∧
        findOrCreateByGoogle gid email name newId now users =
          .ok ({x0 with googleID := some gid, authProvider := "google"},
            users.map (fun v =>
              if v.id == e.id && v.deletedAt == none
              then {v with googleID := some gid, authProvider := "google"} else v)) ∧
        (users.map (fun v =>
          if v.id == e.id && v.deletedAt == none
          then {v with googleID := some gid, authProvider := "google"} else v)).length =
          users.length) := by
  refine ⟨fun u hu => ?_, fun u1 users1 h1 => ?_, fun e hg he => ?_⟩
  · unfold findOrCreateByGoogle
    rw [hu]
  · cases hg : getUserByGoogleID gid users with
    | some u =>
      have hcall : findOrCreateByGoogle gid email name newId now users = .ok (u, users) := by
        unfold findOrCreateByGoogle
        rw [hg]
      rw [hcall] at h1
      injection h1 with h1
      injection h1 with hu1 hus1
      subst hu1
      subst hus1
      unfold findOrCreateByGoogle
      rw [hg]
    | none =>
      cases he : getUserByEmail email users with
      | some e =>
        cases hid : getUserByID e.id users with
        | none =>
          have hcall : findOrCreateByGoogle gid email name newId now users =
              .error (.internal "failed to link google account") := by
            unfold findOrCreateByGoogle linkGoogleAccount
            simp only [hg, he, hid]
          rw [hcall] at h1
          cases h1
        | some x0 =>
          have hcall : findOrCreateByGoogle gid email name newId now users =
              .ok ({x0 with googleID := some gid, authProvider := "google"},
                users.map (fun v =>
                  if v.id == e.id && v.deletedAt == none
                  then {v with googleID := some gid, authProvider := "google"} else v)) := by
            unfold findOrCreateByGoogle linkGoogleAccount
            simp only [hg, he, hid]
          rw [hcall] at h1
          injection h1 with h1
          injection h1 with hu1 hus1
          subst hu1
          subst hus1
          unfold findOrCreateByGoogle
          rw [getUserByGoogleID_map_link gid e.id users x0 hg hid]
      | none =>
        have hcall : findOrCreateByGoogle gid email name newId now users =
            .ok (⟨newId, email, none, name, "user", some gid, "google", some now, none⟩,
              users ++
                [⟨newId, email, none, name, "user", some gid, "google", some now, none⟩]) := by
          unfold findOrCreateByGoogle createOAuthUser
          simp only [hg, he]
        rw [hcall] at h1
        injection h1 with h1
        injection h1 with hu1 hus1
        subst hu1
        subst hus1
        unfold findOrCreateByGoogle
        rw [getUserByGoogleID_append_new gid users _ hg (by simp)]
  · have hmem : e ∈ users := List.mem_of_find?_eq_some he
    have hpe := List.find?_some he
    have hdel : (e.deletedAt == none) = true := by
      have h2 := hpe
      simp only [Bool.and_eq_true] at h2
      simpa using h2.2
    have hsome : (getUserByID e.id users).isSome := by
      unfold getUserByID
      exact List.find?_isSome.mpr ⟨e, hmem, by simp [hdel]⟩
    obtain ⟨x0, hx0⟩ := Option.isSome_iff_exists.mp hsome
    have hx0id : x0.id = e.id := by
      have h2 := List.find?_some hx0
      simp only [Bool.and_eq_true] at h2
      simpa using h2.1
    refine ⟨x0, hx0, hx0id, ?_, by simp⟩
    unfold findOrCreateByGoogle linkGoogleAccount
    simp only [hg, he, hx0]

/-- C6, exercised: a user already carrying the external id is returned as-is
with no write, and repeating the call changes nothing and returns the same
user id. -/
theorem C6_oauth_linking_stability_witness :
    findOrCreateByGoogle "gid1" "anne@x.com" "Anne" 2 50
        [⟨1, "g@x.com", some "h", "G", "user", some "gid1", "google", none, none⟩] =
      .ok (⟨1, "g@x.com", some "h", "G", "user", some "gid1", "google", none, none⟩,
        [⟨1, "g@x.com", some "h", "G", "user", some "gid1", "google", none, none⟩]) ∧
    findOrCreateByGoogle "gid1" "other@x.com" "Omar" 3 60
        [⟨1, "g@x.com", some "h", "G", "user", some "gid1", "google", none, none⟩] =
      .ok (⟨1, "g@x.com", some "h", "G", "user", some "gid1", "google", none, none⟩,
        [⟨1, "g@x.com", some "h", "G", "user", some "gid1", "google", none, none⟩]) :=
  have h := C6_oauth_linking_stability "gid1" "anne@x.com" "Anne" "other@x.com" "Omar"
    2 3 50 60 [⟨1, "g@x.com", some "h", "G", "user", some "gid1", "google", none, none⟩]
  ⟨h.1 ⟨1, "g@x.com", some "h", "G", "user", some "gid1", "google", none, none⟩ rfl,
   h.2.1 ⟨1, "g@x.com", some "h", "G", "user", some "gid1", "google", none, none⟩
     [⟨1, "g@x.com", some "h", "G", "user", some "gid1", "google", none, none⟩]
     (h.1 ⟨1, "g@x.com", some "h", "G", "user", some "gid1", "google", none, none⟩ rfl)⟩

/-! ## C2 — the lockout threshold -/

/-- C2: the login-attempt counter starts at 1 on a first failure, increments
on each later failure with its TTL reset to the full 15-minute window, locks
the account from the 5th failure on — the 6th call is rejected before
touching the store even with correct credentials — and a single success
before the threshold clears the counter. -/
theorem C2_lockout_threshold (pm pm6 : String → String → Bool) (req req6 : Bool)
    (email password goodpw : String) (users users6 : UserStore) (c : Cache)
    (u : User) (hash : String) (t1 t2 t3 t4 t5 t6 : Nat) :
    (∀ now, cacheGet now (loginAttemptsKey email) c = none →
      getUserByEmail email users = some u → u.passwordHash = some hash →
      pm hash password = false →
      userAuthenticate pm req now email password users c =
        (.error (.unauthorized "invalid email or password"),
          cacheSet (loginAttemptsKey email) "1" lockoutDurationSecs now c)) ∧
    (∀ now d n, cacheGet now (loginAttemptsKey email) c = some d → atoiNat d = n →
      n < 5 →
      getUserByEmail email users = some u → u.passwordHash = some hash →
      pm hash password = false →
      userAuthenticate pm req now email password users c =
        (.error (.unauthorized "invalid email or password"),
          cacheSet (loginAttemptsKey email) (Nat.repr (n + 1)) lockoutDurationSecs now c)) ∧
    (∀ now d, cacheGet now (loginAttemptsKey email) c = some d → 5 ≤ atoiNat d →
      userAuthenticate pm req now email password users c =
        (.error (.badRequest "account temporarily locked, try again in 15 minutes"), c)) ∧
    (∀ now d, cacheGet now (loginAttemptsKey email) c = some d → atoiNat d < 5 →
      getUserByEmail email users = some u → u.passwordHash = some hash →
      pm hash goodpw = true → (req && u.emailVerifiedAt == none) = false →
      userAuthenticate pm req now email goodpw users c =
        (.ok u, cacheDelete (loginAttemptsKey email) c) ∧
      cacheGet now (loginAttemptsKey email) (cacheDelete (loginAttemptsKey email) c) =
        none) ∧
    (cacheGet t1 (loginAttemptsKey email) c = none →
      getUserByEmail email users = some u → u.passwordHash = some hash →
      pm hash password = false →
      t2 ≤ t1 + lockoutDurationSecs → t3 ≤ t2 + lockoutDurationSecs →
      t4 ≤ t3 + lockoutDurationSecs → t5 ≤ t4 + lockoutDurationSecs →
      t6 ≤ t5 + lockoutDurationSecs →
      (userAuthenticate pm6 req6 t6 email goodpw users6
        (userAuthenticate pm req t5 email password users
          (userAuthenticate pm req t4 email password users
            (userAuthenticate pm req t3 email password users
              (userAuthenticate pm req t2 email password users
                (userAuthenticate pm req t1 email password users c).2).2).2).2).2).1 =
        .error (.badRequest "account temporarily locked, try again in 15 minutes")) := by
  have hA : ∀ now cc, cacheGet now (loginAttemptsKey email) cc = none →
      getUserByEmail email users = some u → u.passwordHash = some hash →
      pm hash password = false →
      userAuthenticate pm req now email password users cc =
        (.error (.unauthorized "invalid email or password"),
          cacheSet (loginAttemptsKey email) "1" lockoutDurationSecs now cc) := by
    intro now cc h0 hu hh hpm
    unfold userAuthenticate incrementLoginAttempts
    simp [h0, hu, hh, hpm]
    rfl
  have hB : ∀ now cc d n, cacheGet now (loginAttemptsKey email) cc = some d →
      atoiNat d = n → n < 5 →
      getUserByEmail email users = some u → u.passwordHash = some hash →
      pm hash password = false →
      userAuthenticate pm req now email password users cc =
        (.error (.unauthorized "invalid email or password"),
          cacheSet (loginAttemptsKey email) (Nat.repr (n + 1)) lockoutDurationSecs now cc) := by
    intro now cc d n hd hn hlt hu hh hpm
    unfold userAuthenticate incrementLoginAttempts
    simp [hd, hn, hu, hh, hpm, maxLoginAttempts]
    omega
  have hC : ∀ (pmx : String → String → Bool) (reqx : Bool) (usersx : UserStore)
      (pwx : String) now cc d, cacheGet now (loginAttemptsKey email) cc = some d →
      5 ≤ atoiNat d →
      userAuthenticate pmx reqx now email pwx usersx cc =
        (.error (.badRequest "account temporarily locked, try again in 15 minutes"), cc) := by
    intro pmx reqx usersx pwx now cc d hd hge
    unfold userAuthenticate
    have hlock : decide (maxLoginAttempts ≤ atoiNat d) = true := by
      simpa only [decide_eq_true_eq, maxLoginAttempts] using hge
    simp [hd, hlock]
  refine ⟨fun now h0 => hA now c h0, fun now d n => hB now c d n,
    fun now d => hC pm req users password now c d, fun now d hd hlt hu hh hpm hreq => ?_,
    fun h0 hu hh hpm h12 h23 h34 h45 h56 => ?_⟩
  · constructor
    · unfold userAuthenticate
      simp [hd, hu, hh, hpm, hreq, maxLoginAttempts]
      omega
    · exact cacheGet_delete_self now (loginAttemptsKey email) c
  · have e1 := hA t1 c h0 hu hh hpm
    have g1 : cacheGet t2 (loginAttemptsKey email)
        (cacheSet (loginAttemptsKey email) "1" lockoutDurationSecs t1 c) = some "1" := by
      rw [cacheGet_set_self, if_neg]
      omega
    have e2 := hB t2 _ "1" 1 g1 (by decide) (by decide) hu hh hpm
    have g2 : cacheGet t3 (loginAttemptsKey email)
        (cacheSet (loginAttemptsKey email) (Nat.repr (1 + 1)) lockoutDurationSecs t2 (cacheSet (loginAttemptsKey email) "1" lockoutDurationSecs t1 c)) = some (Nat.repr (1 + 1)) := by
      rw [cacheGet_set_self, if_neg]
      omega
    have e3 := hB t3 _ (Nat.repr (1 + 1)) 2 g2 (by decide) (by decide) hu hh hpm
    have g3 : cacheGet t4 (loginAttemptsKey email)
        (cacheSet (loginAttemptsKey email) (Nat.repr (2 + 1)) lockoutDurationSecs t3 (cacheSet (loginAttemptsKey email) (Nat.repr (1 + 1)) lockoutDurationSecs t2 (cacheSet (loginAttemptsKey email) "1" lockoutDurationSecs t1 c))) = some (Nat.repr (2 + 1)) := by
      rw [cacheGet_set_self, if_neg]
      omega
    have e4 := hB t4 _ (Nat.repr (2 + 1)) 3 g3 (by decide) (by decide) hu hh hpm
    have g4 : cacheGet t5 (loginAttemptsKey email)
        (cacheSet (loginAttemptsKey email) (Nat.repr (3 + 1)) lockoutDurationSecs t4 (cacheSet (loginAttemptsKey email) (Nat.repr (2 + 1)) lockoutDurationSecs t3 (cacheSet (loginAttemptsKey email) (Nat.repr (1 + 1)) lockoutDurationSecs t2 (cacheSet (loginAttemptsKey email) "1" lockoutDurationSecs t1 c)))) = some (Nat.repr (3 + 1)) := by
      rw [cacheGet_set_self, if_neg]
      omega
    have e5 := hB t5 _ (Nat.repr (3 + 1)) 4 g4 (by decide) (by decide) hu hh hpm
    have g5 : cacheGet t6 (loginAttemptsKey email)
        (cacheSet (loginAttemptsKey email) (Nat.repr (4 + 1)) lockoutDurationSecs t5 (cacheSet (loginAttemptsKey email) (Nat.repr (3 + 1)) lockoutDurationSecs t4 (cacheSet (loginAttemptsKey email) (Nat.repr (2 + 1)) lockoutDurationSecs t3 (cacheSet (loginAttemptsKey email) (Nat.repr (1 + 1)) lockoutDurationSecs t2 (cacheSet (loginAttemptsKey email) "1" lockoutDurationSecs t1 c))))) = some (Nat.repr (4 + 1)) := by
      rw [cacheGet_set_self, if_neg]
      omega
    have e6 := hC pm6 req6 users6 goodpw t6 _ (Nat.repr (4 + 1)) g5 (by decide)
    simp only [e1, e2, e3, e4, e5, e6]

/-- C2, exercised: five wrong-password attempts from a fresh counter lock
the sixth, correct-password, attempt out; and a success at counter 3 clears
the counter. -/
theorem C2_lockout_threshold_witness :
    (userAuthenticate (fun _ p => p == "good") false 0 "e@x.com" "good"
      [⟨1, "e@x.com", some "h", "E", "user", none, "local", some 1, none⟩]
      (userAuthenticate (fun _ p => p == "good") false 0 "e@x.com" "bad"
        [⟨1, "e@x.com", some "h", "E", "user", none, "local", some 1, none⟩]
        (userAuthenticate (fun _ p => p == "good") false 0 "e@x.com" "bad"
          [⟨1, "e@x.com", some "h", "E", "user", none, "local", some 1, none⟩]
          (userAuthenticate (fun _ p => p == "good") false 0 "e@x.com" "bad"
            [⟨1, "e@x.com", some "h", "E", "user", none, "local", some 1, none⟩]
            (userAuthenticate (fun _ p => p == "good") false 0 "e@x.com" "bad"
              [⟨1, "e@x.com", some "h", "E", "user", none, "local", some 1, none⟩]
              (userAuthenticate (fun _ p => p == "good") false 0 "e@x.com" "bad"
                [⟨1, "e@x.com", some "h", "E", "user", none, "local", some 1, none⟩]
                []).2).2).2).2).2).1 =
      .error (.badRequest "account temporarily locked, try again in 15 minutes") ∧
    userAuthenticate (fun _ p => p == "good") false 50 "e@x.com" "good"
      [⟨1, "e@x.com", some "h", "E", "user", none, "local", some 1, none⟩]
      [⟨loginAttemptsKey "e@x.com", "3", 100⟩] =
      (.ok ⟨1, "e@x.com", some "h", "E", "user", none, "local", some 1, none⟩,
        cacheDelete (loginAttemptsKey "e@x.com")
          [⟨loginAttemptsKey "e@x.com", "3", 100⟩]) :=
  ⟨(C2_lockout_threshold (fun _ p => p == "good") (fun _ p => p == "good") false false
      "e@x.com" "bad" "good"
      [⟨1, "e@x.com", some "h", "E", "user", none, "local", some 1, none⟩]
      [⟨1, "e@x.com", some "h", "E", "user", none, "local", some 1, none⟩] []
      ⟨1, "e@x.com", some "h", "E", "user", none, "local", some 1, none⟩ "h"
      0 0 0 0 0 0).2.2.2.2
    rfl rfl rfl (by decide) (by decide) (by decide) (by decide) (by decide) (by decide),
   ((C2_lockout_threshold (fun _ p => p == "good") (fun _ p => p == "good") false false
      "e@x.com" "bad" "good"
      [⟨1, "e@x.com", some "h", "E", "user", none, "local", some 1, none⟩]
      [⟨1, "e@x.com", some "h", "E", "user", none, "local", some 1, none⟩]
      [⟨loginAttemptsKey "e@x.com", "3", 100⟩]
      ⟨1, "e@x.com", some "h", "E", "user", none, "local", some 1, none⟩ "h"
      0 0 0 0 0 0).2.2.2.1 50 "3"
    (by decide) (by decide) rfl rfl (by decide) (by decide)).1⟩

/-! ## C7 — resending verification for an already-verified account

The source checks the rate-limit key *before* loading the user, so the
"already verified" short-circuit is only reached when the key is absent:
with the key present the call returns the rate-limit error even for a
verified account. -/

/-- C7 as claimed fails on the code: a verified account with the rate-limit
key present gets the "please wait" error, not success. -/
theorem C7_resend_verified_counterexample :
    getUserByEmail "u@x.com"
      ([⟨1, "u@x.com", none, "U", "user", some "g", "google", some 10, none⟩] :
        UserStore) =
      some ⟨1, "u@x.com", none, "U", "user", some "g", "google", some 10, none⟩ ∧
    (Option.isSome
      (User.emailVerifiedAt
        ⟨1, "u@x.com", none, "U", "user", some "g", "google", some 10, none⟩)) = true ∧
    resendVerification 50 "u@x.com" "tok" "http://f"
      ⟨[⟨1, "u@x.com", none, "U", "user", some "g", "google", some 10, none⟩], [],
        [⟨emailVerificationKey "u@x.com", "1", 100⟩], []⟩ =
      (.error (.badRequest "please wait before requesting another verification email"),
        ⟨[⟨1, "u@x.com", none, "U", "user", some "g", "google", some 10, none⟩], [],
          [⟨emailVerificationKey "u@x.com", "1", 100⟩], []⟩) :=
  ⟨rfl, rfl, rfl⟩

/-- C7, amended: provided the rate-limit key for the email is absent,
`ResendVerification` for an existing, already-verified account returns
success with no state change — no email sent, no rate-limit error, no
cache write. -/
theorem C7_resend_already_verified (now : Nat) (emailAddr newTok frontURL : String)
    (st : VerifState) (u : User)
    (hkey : cacheExists now (emailVerificationKey emailAddr) st.cache = false)
    (hu : getUserByEmail emailAddr st.users = some u)
    (hver : u.emailVerifiedAt.isSome = true) :
    resendVerification now emailAddr newTok frontURL st = (.ok (), st) := by
  unfold resendVerification
  simp [hkey, hu, hver]

/-- C7 amended, exercised: with an empty cache the verified account gets
silent success and the state is untouched. -/
theorem C7_resend_already_verified_witness :
    resendVerification 50 "u@x.com" "tok" "http://f"
      ⟨[⟨1, "u@x.com", none, "U", "user", some "g", "google", some 10, none⟩], [], [], []⟩ =
      (.ok (),
        ⟨[⟨1, "u@x.com", none, "U", "user", some "g", "google", some 10, none⟩],
          [], [], []⟩) :=
  C7_resend_already_verified 50 "u@x.com" "tok" "http://f"
    ⟨[⟨1, "u@x.com", none, "U", "user", some "g", "google", some 10, none⟩], [], [], []⟩
    ⟨1, "u@x.com", none, "U", "user", some "g", "google", some 10, none⟩
    rfl rfl rfl

/-! ## C8 — anti-enumeration in `ForgotPassword` -/

/-- C8: for an unknown email (key absent) `ForgotPassword` returns success
and leaves the whole state — store, cache and outbox — unchanged; with the
rate-limit key present it returns the generic "wait" error, again leaving
the state unchanged, before any store access. -/
theorem C8_forgot_password_no_side_effect (now : Nat) (email newTok url : String)
    (randOk createOk : Bool) (st : ResetState) :
    (cacheExists now (passwordResetKey email) st.cache = false →
      getUserByEmail email st.users = none →
      forgotPassword now email newTok url randOk createOk st = (.ok (), st)) ∧
    (cacheExists now (passwordResetKey email) st.cache = true →
      forgotPassword now email newTok url randOk createOk st =
        (.error (.badRequest "please wait before requesting another password reset"), st)) := by
  constructor
  · intro hkey hu
    unfold forgotPassword
    simp [hkey, hu]
  · intro hkey
    unfold forgotPassword
    simp [hkey]

/-- C8, exercised: an unknown email yields silent success with no state
change, and a present rate-limit key yields the generic error with no state
change. -/
theorem C8_forgot_password_no_side_effect_witness :
    forgotPassword 50 "ghost@x.com" "tok" "http://f" true true ⟨[], [], [], [], []⟩ =
      (.ok (), ⟨[], [], [], [], []⟩) ∧
    forgotPassword 50 "ghost@x.com" "tok" "http://f" true true
      ⟨[], [], [], [⟨passwordResetKey "ghost@x.com", "1", 100⟩], []⟩ =
      (.error (.badRequest "please wait before requesting another password reset"),
        ⟨[], [], [], [⟨passwordResetKey "ghost@x.com", "1", 100⟩], []⟩) :=
  ⟨(C8_forgot_password_no_side_effect 50 "ghost@x.com" "tok" "http://f" true true
      ⟨[], [], [], [], []⟩).1 rfl rfl,
   (C8_forgot_password_no_side_effect 50 "ghost@x.com" "tok" "http://f" true true
      ⟨[], [], [], [⟨passwordResetKey "ghost@x.com", "1", 100⟩], []⟩).2 rfl⟩

/-! ## C9 — access-token parsing pins method, issuer and audience -/

/-- C9: `token.Parse` rejects every token whose header declares a non-HMAC
algorithm, however it was signed; it rejects any token whose issuer is not
the pinned service issuer or whose audience does not contain the pinned
service audience; and any claims it does accept carry the pinned issuer and
audience. -/
theorem C9_parse_pins_alg_issuer_audience (now : Nat) (tok : JwtToken) (secret : String) :
    (tok.alg.isHMAC = false → tokenParse now tok secret = none) ∧
    (tok.claims.issuer ≠ some jwtIssuer → tokenParse now tok secret = none) ∧
    (tok.claims.audience.contains jwtAudience = false → tokenParse now tok secret = none) ∧
    (∀ c, tokenParse now tok secret = some c →
      c.issuer = some jwtIssuer ∧ c.audience.contains jwtAudience = true) := by
  have hmain : ∀ c, tokenParse now tok secret = some c →
      c = tok.claims ∧ tok.claims.issuer = some jwtIssuer ∧
        tok.claims.audience.contains jwtAudience = true := by
    intro c hc
    unfold tokenParse at hc
    split_ifs at hc with h1 h2 h3 h4 h5
    injection hc with hc
    subst hc
    refine ⟨rfl, ?_, ?_⟩
    · have h4' : (tok.claims.issuer != some jwtIssuer) = false := by
        simpa using h4
      simpa using h4'
    · simpa using h5
  refine ⟨fun h => ?_, fun h => ?_, fun h => ?_, fun c hc =>
    ⟨((hmain c hc).1 ▸ (hmain c hc).2.1), ((hmain c hc).1 ▸ (hmain c hc).2.2)⟩⟩
  · unfold tokenParse
    simp [h]
  · cases hres : tokenParse now tok secret with
    | none => rfl
    | some c => exact absurd (hmain c hres).2.1 h
  · cases hres : tokenParse now tok secret with
    | none => rfl
    | some c =>
      have := (hmain c hres).2.2
      rw [h] at this
      cases this

/-- C9, exercised: an RS256-headed token is rejected outright, and the
claims of an accepted freshly minted token carry the pinned issuer and
audience. -/
theorem C9_parse_pins_alg_issuer_audience_witness :
    tokenParse 60
      ⟨.RS256, ⟨1, "e", "user", some 100, some 5, some jwtIssuer, [jwtAudience]⟩,
        ⟨.RS256, "sec", ⟨1, "e", "user", some 100, some 5, some jwtIssuer, [jwtAudience]⟩⟩⟩
      "sec" = none ∧
    ((tokenGenerate 1 "e" "user" "sec" 2 5).claims.issuer = some jwtIssuer ∧
      (tokenGenerate 1 "e" "user" "sec" 2 5).claims.audience.contains jwtAudience = true) :=
  ⟨(C9_parse_pins_alg_issuer_audience 60
      ⟨.RS256, ⟨1, "e", "user", some 100, some 5, some jwtIssuer, [jwtAudience]⟩,
        ⟨.RS256, "sec", ⟨1, "e", "user", some 100, some 5, some jwtIssuer, [jwtAudience]⟩⟩⟩
      "sec").1 rfl,
   (C9_parse_pins_alg_issuer_audience 10 (tokenGenerate 1 "e" "user" "sec" 2 5)
      "sec").2.2.2 (tokenGenerate 1 "e" "user" "sec" 2 5).claims rfl⟩

/-! ## C10 — no rate-limit key on a failed `ForgotPassword` -/

/-- C10: when the random draw or the token insert fails, `ForgotPassword`
returns `InternalFailure` without setting the rate-limit key — the cache is
unchanged and the key still absent, so an immediate retry is not blocked. -/
theorem C10_no_rate_limit_on_failure (now : Nat) (email newTok url : String)
    (createOk : Bool) (st : ResetState) (u : User)
    (hkey : cacheExists now (passwordResetKey email) st.cache = false)
    (hu : getUserByEmail email st.users = some u) :
    forgotPassword now email newTok url false createOk st =
      (.error (.internal "failed to generate reset token"), st) ∧
    forgotPassword now email newTok url true false st =
      (.error (.internal "failed to create reset token"),
        {st with resetTokens := deleteSideTokensByUserID u.id st.resetTokens}) ∧
    ResetState.cache {st with resetTokens := deleteSideTokensByUserID u.id st.resetTokens} =
      st.cache ∧
    cacheExists now (passwordResetKey email)
      (ResetState.cache
        {st with resetTokens := deleteSideTokensByUserID u.id st.resetTokens}) = false := by
  refine ⟨?_, ?_, rfl, hkey⟩
  · unfold forgotPassword
    simp [hkey, hu]
  · unfold forgotPassword
    simp [hkey, hu]

/-- C10, exercised: both failure injections leave the cache without the
rate-limit key on a concrete state. -/
theorem C10_no_rate_limit_on_failure_witness :
    forgotPassword 50 "a@x.com" "tok" "http://f" false true
      ⟨[⟨1, "a@x.com", some "h", "A", "user", none, "local", some 5, none⟩],
        [⟨1, "old", 40⟩], [], [], []⟩ =
      (.error (.internal "failed to generate reset token"),
        ⟨[⟨1, "a@x.com", some "h", "A", "user", none, "local", some 5, none⟩],
          [⟨1, "old", 40⟩], [], [], []⟩) ∧
    forgotPassword 50 "a@x.com" "tok" "http://f" true false
      ⟨[⟨1, "a@x.com", some "h", "A", "user", none, "local", some 5, none⟩],
        [⟨1, "old", 40⟩], [], [], []⟩ =
      (.error (.internal "failed to create reset token"),
        {(⟨[⟨1, "a@x.com", some "h", "A", "user", none, "local", some 5, none⟩],
            [⟨1, "old", 40⟩], [], [], []⟩ : ResetState) with
          resetTokens := deleteSideTokensByUserID 1 [⟨1, "old", 40⟩]}) ∧
    cacheExists 50 (passwordResetKey "a@x.com")
      (ResetState.cache
        {(⟨[⟨1, "a@x.com", some "h", "A", "user", none, "local", some 5, none⟩],
            [⟨1, "old", 40⟩], [], [], []⟩ : ResetState) with
          resetTokens := deleteSideTokensByUserID 1 [⟨1, "old", 40⟩]}) = false :=
  have h := C10_no_rate_limit_on_failure 50 "a@x.com" "tok" "http://f" true
    ⟨[⟨1, "a@x.com", some "h", "A", "user", none, "local", some 5, none⟩],
      [⟨1, "old", 40⟩], [], [], []⟩
    ⟨1, "a@x.com", some "h", "A", "user", none, "local", some 5, none⟩ rfl rfl
  ⟨h.1, h.2.1, h.2.2.2⟩
